import Mathlib

/-!
Verification of the remote ancient-store protocol adapters
(`core/rawdb/freezer_remote_api.go` — the Server Facade — and
`core/rawdb/freezer_remote_client.go` — the Remote Client).

Bytes are modelled as `Nat` values (< 256 where it matters); binary blobs as
`List Nat`.  The Ancient Store Engine (`freezerRemote`) and the binary
envelope codec (`hexutil`) are external to the two adapter files, so they are
modelled from the spec where needed; the two adapter files themselves are
embedded directly from the source.
-/

/-- Error taxonomy of the protocol (spec §7).  `EngineError` carries an opaque
code so that distinct opaque engine failures are distinguishable. -/
inductive FreezerErr where
  | MalformedEnvelope
  | NotFound
  | OutOfOrderAppend
  | InvalidTruncateTarget
  | TransportError
  | EngineError (code : Nat)
deriving DecidableEq, Repr

namespace hexutil

/-- Modelled from the spec: the Binary Envelope Codec's digit map (`hexutil`
is not under `src/`).  A nibble value below ten becomes the corresponding
decimal digit, ten through fifteen the lowercase letters starting at `a`;
values ≥ 16 never arise from bytes < 256. -/
def hexDigitOfNat (n : Nat) : Char :=
  if n < 10 then Char.ofNat (Char.toNat '0' + n)
  else Char.ofNat (Char.toNat 'a' + (n - 10))

/-- Modelled from the spec: inverse digit map of the codec, by character
ranges.  Accepts both lowercase and uppercase hexadecimal digits. -/
def hexCharVal (c : Char) : Option Nat :=
  if '0' ≤ c ∧ c ≤ '9' then some (Char.toNat c - Char.toNat '0')
  else if 'a' ≤ c ∧ c ≤ 'f' then some (Char.toNat c - Char.toNat 'a' + 10)
  else if 'A' ≤ c ∧ c ≤ 'F' then some (Char.toNat c - Char.toNat 'A' + 10)
  else none

/-- Each byte becomes two hexadecimal characters (high nibble first). -/
def encodeBytes : List Nat → List Char
  | [] => []
  | b :: rest => hexDigitOfNat (b / 16) :: hexDigitOfNat (b % 16) :: encodeBytes rest

/-- Characters after the `0x` prefix are consumed in pairs; an odd-length or
non-hexadecimal tail is a malformed envelope. -/
def decodePairs : List Char → Except FreezerErr (List Nat)
  | [] => Except.ok []
  | [_] => Except.error FreezerErr.MalformedEnvelope
  | c1 :: c2 :: rest =>
    match hexCharVal c1, hexCharVal c2 with
    | some hi, some lo =>
      match decodePairs rest with
      | Except.ok bs => Except.ok ((hi * 16 + lo) :: bs)
      | Except.error e => Except.error e
    | _, _ => Except.error FreezerErr.MalformedEnvelope

/-- Modelled from the spec: `hexutil.Encode` — every binary blob crossing the
boundary is a `0x`-prefixed hexadecimal string; the empty blob is the literal
string `0x` (spec §6). -/
def Encode (b : List Nat) : String :=
  String.mk ('0' :: 'x' :: encodeBytes b)

/-- Modelled from the spec: `hexutil.Decode` — requires the `0x` prefix and a
valid even-length hexadecimal tail; anything else is a `MalformedEnvelope`
error (spec §4.1). -/
def Decode (s : String) : Except FreezerErr (List Nat) :=
  match s.data with
  | c1 :: c2 :: rest =>
    if c1 = '0' ∧ c2 = 'x' then decodePairs rest
    else Except.error FreezerErr.MalformedEnvelope
  | _ => Except.error FreezerErr.MalformedEnvelope

theorem hexCharVal_hexDigitOfNat (n : Nat) (h : n < 16) :
    hexCharVal (hexDigitOfNat n) = some n := by
  have key : ∀ i : Fin 16, hexCharVal (hexDigitOfNat i.val) = some i.val := by decide
  exact key ⟨n, h⟩

theorem decodePairs_encodeBytes (B : List Nat) (h : ∀ b ∈ B, b < 256) :
    decodePairs (encodeBytes B) = Except.ok B := by
  induction B with
  | nil => rfl
  | cons b rest ih =>
    have hb : b < 256 := h b (List.mem_cons_self b rest)
    have hhi : b / 16 < 16 := Nat.div_lt_of_lt_mul (by omega)
    have hlo : b % 16 < 16 := Nat.mod_lt _ (by omega)
    have hrest : ∀ x ∈ rest, x < 256 := fun x hx => h x (List.mem_cons_of_mem _ hx)
    simp only [encodeBytes, decodePairs,
      hexCharVal_hexDigitOfNat _ hhi, hexCharVal_hexDigitOfNat _ hlo, ih hrest]
    have : b / 16 * 16 + b % 16 = b := by omega
    rw [this]

theorem Decode_Encode (B : List Nat) (h : ∀ b ∈ B, b < 256) :
    Decode (Encode B) = Except.ok B := by
  simp only [Decode, Encode]
  simpa using decodePairs_encodeBytes B h

end hexutil

/-- The five record categories of an ancient record (spec §3). -/
inductive Kind where
  | hash
  | header
  | body
  | receipts
  | td
deriving DecidableEq, Repr

/-- Modelled from the spec: the logical state of the Ancient Store Engine
(`freezerRemote`, not under `src/`): a frozen counter and, per category, the
ordered sequence of committed blobs (spec §3), plus a closed flag for the
resource lifecycle. -/
structure EngineState where
  frozen : Nat
  hashTable : List (List Nat)
  headerTable : List (List Nat)
  bodyTable : List (List Nat)
  receiptsTable : List (List Nat)
  tdTable : List (List Nat)
  closed : Bool
deriving DecidableEq, Repr

/-- The blob sequence the store holds for a given category. -/
def tableOf (s : EngineState) : Kind → List (List Nat)
  | Kind.hash => s.hashTable
  | Kind.header => s.headerTable
  | Kind.body => s.bodyTable
  | Kind.receipts => s.receiptsTable
  | Kind.td => s.tdTable

/-- Modelled from the spec: Engine `AppendAncient` (§4.3) — accept only if
`number` equals the frozen count, then append to every category and bump
`frozen` by one; any other number is rejected with `OutOfOrderAppend` and the
state is unchanged. -/
def engineAppendAncient (s : EngineState) (number : Nat)
    (bHash bHeader bBody bReceipts bTd : List Nat) :
    Option FreezerErr × EngineState :=
  if number = s.frozen then
    (none,
      { s with
        frozen := s.frozen + 1,
        hashTable := s.hashTable ++ [bHash],
        headerTable := s.headerTable ++ [bHeader],
        bodyTable := s.bodyTable ++ [bBody],
        receiptsTable := s.receiptsTable ++ [bReceipts],
        tdTable := s.tdTable ++ [bTd] })
  else (some FreezerErr.OutOfOrderAppend, s)

/-- Modelled from the spec: Engine `Ancient` (§4.2) — fails `NotFound` when the
number is not below the frozen count. -/
def engineAncient (s : EngineState) (k : Kind) (n : Nat) :
    List Nat × Option FreezerErr :=
  if n < s.frozen then ((tableOf s k).getD n [], none)
  else ([], some FreezerErr.NotFound)

/-- Modelled from the spec: Engine `HasAncient` (§4.2) — true iff the number is
below the frozen count. -/
def engineHasAncient (s : EngineState) (_k : Kind) (n : Nat) :
    Bool × Option FreezerErr :=
  (decide (n < s.frozen), none)

/-- Modelled from the spec: Engine `Ancients` (§4.2) — the frozen count. -/
def engineAncients (s : EngineState) : Nat × Option FreezerErr :=
  (s.frozen, none)

/-- Modelled from the spec: Engine `AncientSize` (§4.2) — cumulative stored
byte size of a category. -/
def engineAncientSize (s : EngineState) (k : Kind) : Nat × Option FreezerErr :=
  (((tableOf s k).map List.length).sum, none)

/-- Modelled from the spec: Engine `TruncateAncients` (§4.4) — fails
`InvalidTruncateTarget` when the target exceeds the frozen count, otherwise
truncates every category to the target and sets `frozen` to it. -/
def engineTruncateAncients (s : EngineState) (target : Nat) :
    Option FreezerErr × EngineState :=
  if s.frozen < target then (some FreezerErr.InvalidTruncateTarget, s)
  else
    (none,
      { frozen := target,
        hashTable := s.hashTable.take target,
        headerTable := s.headerTable.take target,
        bodyTable := s.bodyTable.take target,
        receiptsTable := s.receiptsTable.take target,
        tdTable := s.tdTable.take target,
        closed := s.closed })

/-- Modelled from the spec: Engine `Sync` (§4.4) flushes buffers; in the pure
model the logical state is unchanged. -/
def engineSync (s : EngineState) : Option FreezerErr × EngineState :=
  (none, s)

/-- Modelled from the spec: Engine `Close` (§4.2) — releases all resources and
is idempotent. -/
def engineClose (s : EngineState) : Option FreezerErr × EngineState :=
  (none, { s with closed := true })

namespace FreezerRemoteAPI

/-- From `freezer_remote_api.go`: the facade's local version string. -/
def pingVersion : String := "version 1"

/-- From `freezer_remote_api.go`: `Close` delegates to the Engine. -/
def Close (s : EngineState) : Option FreezerErr × EngineState :=
  engineClose s

/-- From `freezer_remote_api.go`: `repair`'s entire body is commented out and
it returns nil. -/
def repair (s : EngineState) : Option FreezerErr × EngineState :=
  (none, s)

/-- From `freezer_remote_api.go`: `AppendAncient` decodes the five textual
arguments and delegates to the Engine.  Faithful to the source: the decode
errors of `hash`, `header`, `body` and `receipts` are each checked and
returned, but the error of the fifth decode (`td`) is assigned and never
checked — on a malformed `td` the Engine is still invoked, with the nil blob
that `hexutil.Decode` returned alongside its error. -/
def AppendAncient (s : EngineState) (number : Nat)
    (hash header body receipts td : String) :
    Option FreezerErr × EngineState :=
  match hexutil.Decode hash with
  | Except.error e => (some e, s)
  | Except.ok bHash =>
    match hexutil.Decode header with
    | Except.error e => (some e, s)
    | Except.ok bHeader =>
      match hexutil.Decode body with
      | Except.error e => (some e, s)
      | Except.ok bBody =>
        match hexutil.Decode receipts with
        | Except.error e => (some e, s)
        | Except.ok bReceipts =>
          let bTd :=
            match hexutil.Decode td with
            | Except.ok b => b
            | Except.error _ => []
          engineAppendAncient s number bHash bHeader bBody bReceipts bTd

end FreezerRemoteAPI

/-!
The same facade entry points, embedded a second time with the Engine's
outcome as an explicit parameter.  The Engine behind the facade is an opaque
collaborator, so each method here is a function of the value-and-error pair
the Engine call produced, mirroring the Go control flow exactly; this form
lets the error-propagation contract be stated for arbitrary engine errors.
-/
namespace FreezerRemoteAPIGen

/-- From `freezer_remote_api.go`: `HasAncient` returns the Engine's pair
unchanged. -/
def HasAncient (res : Bool × Option FreezerErr) : Bool × Option FreezerErr :=
  res

/-- From `freezer_remote_api.go`: `Ancient` returns `("0x", err)` when the
Engine reports an error, and the hex encoding of the Engine's blob (with a nil
error) otherwise. -/
def Ancient (res : List Nat × Option FreezerErr) : String × Option FreezerErr :=
  match res with
  | (_, some e) => ("0x", some e)
  | (b, none) => (hexutil.Encode b, none)

/-- From `freezer_remote_api.go`: `Ancients` returns `(0, err)` on an Engine
error, the count otherwise. -/
def Ancients (res : Nat × Option FreezerErr) : Nat × Option FreezerErr :=
  match res with
  | (_, some e) => (0, some e)
  | (n, none) => (n, none)

/-- From `freezer_remote_api.go`: `AncientSize` returns `(0, err)` on an
Engine error, the size otherwise. -/
def AncientSize (res : Nat × Option FreezerErr) : Nat × Option FreezerErr :=
  match res with
  | (_, some e) => (0, some e)
  | (n, none) => (n, none)

/-- From `freezer_remote_api.go`: `AppendAncient` with the Engine call's
result as a parameter; the first four decode errors are checked, the fifth
(`td`) is not, so once the first four arguments decode the Engine's result is
returned as is. -/
def AppendAncient (hash header body receipts td : String)
    (engineRes : Option FreezerErr) : Option FreezerErr :=
  match hexutil.Decode hash with
  | Except.error e => some e
  | Except.ok _ =>
    match hexutil.Decode header with
    | Except.error e => some e
    | Except.ok _ =>
      match hexutil.Decode body with
      | Except.error e => some e
      | Except.ok _ =>
        match hexutil.Decode receipts with
        | Except.error e => some e
        | Except.ok _ => engineRes

/-- From `freezer_remote_api.go`: `TruncateAncients` returns the Engine's
error unchanged. -/
def TruncateAncients (engineRes : Option FreezerErr) : Option FreezerErr :=
  engineRes

/-- From `freezer_remote_api.go`: `Sync` returns the Engine's error
unchanged. -/
def Sync (engineRes : Option FreezerErr) : Option FreezerErr :=
  engineRes

/-- From `freezer_remote_api.go`: `Close` returns the Engine's error
unchanged. -/
def Close (engineRes : Option FreezerErr) : Option FreezerErr :=
  engineRes

end FreezerRemoteAPIGen

/-- From `freezer_remote_client.go`: the client struct; the `rpc.Client`
pointer and the quit channel are opaque connection state, the observable field
is the diagnostic status string. -/
structure FreezerRemoteClient where
  status : String
deriving DecidableEq, Repr

/-- From `freezer_remote_client.go`: `pingVersion` returns the constant pair
`("version 1", nil)`.  The transport is modelled as the list of RPC requests
issued so far, threaded through the call; the body performs no `client.Call`,
so the request list passes through untouched. -/
def FreezerRemoteClient.pingVersion (trace : List String) :
    (String × Option FreezerErr) × List String :=
  (("version 1", none), trace)

/-- From `freezer_remote_client.go`: `newFreezerRemoteClient` dials the
endpoint (the dial's outcome is the `dialResult` parameter, the transport
being an external collaborator), fails construction if the dial failed, then
runs `pingVersion`, fails construction if the probe errored, and otherwise
records the status string `fmt.Sprintf("ok [version=%v]", version)`. -/
def newFreezerRemoteClient (dialResult : Option FreezerErr)
    (trace : List String) :
    Except FreezerErr FreezerRemoteClient × List String :=
  match dialResult with
  | some e => (Except.error e, trace)
  | none =>
    match FreezerRemoteClient.pingVersion trace with
    | ((_, some e), t) => (Except.error e, t)
    | ((version, none), t) =>
      (Except.ok { status := "ok [version=" ++ version ++ "]" }, t)

/-- From `freezer_remote_client.go`: `Close` issues the `freezer_close` RPC;
the server facade's `Close` handles it by delegating to the Engine. -/
def FreezerRemoteClient.Close (s : EngineState) :
    Option FreezerErr × EngineState :=
  FreezerRemoteAPI.Close s

/-- From `freezer_remote_client.go`: `AppendAncient` hex-encodes the five
blobs and issues the `freezer_appendAncient` RPC; `call` is the transport's
round trip, whose result the method returns unchanged. -/
def FreezerRemoteClient.AppendAncient
    (call : Nat → String → String → String → String → String → Option FreezerErr)
    (number : Nat) (hash header body receipts td : List Nat) :
    Option FreezerErr :=
  call number (hexutil.Encode hash) (hexutil.Encode header)
    (hexutil.Encode body) (hexutil.Encode receipts) (hexutil.Encode td)

/-- The empty store: no records frozen, all categories empty, open. -/
def emptyStore : EngineState :=
  { frozen := 0,
    hashTable := [],
    headerTable := [],
    bodyTable := [],
    receiptsTable := [],
    tdTable := [],
    closed := false }

/-- Claim C1: for every AppendAncient call on the store, if the call's number
equals the current frozen count the call succeeds and the frozen count
afterwards is the old frozen count plus 1; if the number differs, the call
fails with OutOfOrderAppend and the store (hence the frozen count) is
unchanged. -/
theorem c1_appendAncient_ordering (s : EngineState) (n : Nat)
    (bh bhd bb br bt : List Nat) :
    (n = s.frozen →
      (engineAppendAncient s n bh bhd bb br bt).1 = none ∧
      (engineAppendAncient s n bh bhd bb br bt).2.frozen = s.frozen + 1) ∧
    (n ≠ s.frozen →
      (engineAppendAncient s n bh bhd bb br bt).1 =
        some FreezerErr.OutOfOrderAppend ∧
      (engineAppendAncient s n bh bhd bb br bt).2 = s) := by
  constructor
  · intro h
    subst h
    simp [engineAppendAncient]
  · intro h
    simp [engineAppendAncient, h]

/-- Claim C1, witness: on the empty store, appending number 0 succeeds and
freezes one record; appending number 5 fails with OutOfOrderAppend and leaves
the store untouched. -/
theorem c1_appendAncient_ordering_witness :
    ((engineAppendAncient emptyStore 0 [1] [2] [3] [4] [5]).1 = none ∧
     (engineAppendAncient emptyStore 0 [1] [2] [3] [4] [5]).2.frozen =
       emptyStore.frozen + 1) ∧
    ((engineAppendAncient emptyStore 5 [1] [2] [3] [4] [5]).1 =
       some FreezerErr.OutOfOrderAppend ∧
     (engineAppendAncient emptyStore 5 [1] [2] [3] [4] [5]).2 = emptyStore) :=
  ⟨(c1_appendAncient_ordering emptyStore 0 [1] [2] [3] [4] [5]).1 (by decide),
   (c1_appendAncient_ordering emptyStore 5 [1] [2] [3] [4] [5]).2 (by decide)⟩

/-- Claim C2: the claim fails on the code — calling the facade's AppendAncient
on the empty store with a malformed `td` argument (`"zz"`, which the codec
rejects as a MalformedEnvelope) does NOT return a decode error and DOES invoke
the Engine: the append succeeds with an empty td blob and the frozen count
becomes 1.  The error of the fifth `hexutil.Decode` is assigned but never
checked in the source. -/
theorem c2_td_decode_error_ignored :
    hexutil.Decode "zz" = Except.error FreezerErr.MalformedEnvelope ∧
    FreezerRemoteAPI.AppendAncient emptyStore 0 "0x01" "0x02" "0x03" "0x04" "zz" =
      (none,
        { frozen := 1,
          hashTable := [[1]],
          headerTable := [[2]],
          bodyTable := [[3]],
          receiptsTable := [[4]],
          tdTable := [[]],
          closed := false }) := by
  constructor
  · rfl
  · rfl

/-- Claim C3: decoding the envelope produced by encoding any byte sequence B
(bytes < 256) returns exactly B; encoding the empty sequence produces the
literal marker `0x`, and decoding `0x` returns the empty sequence. -/
theorem c3_codec_roundtrip (B : List Nat) (h : ∀ b ∈ B, b < 256) :
    hexutil.Decode (hexutil.Encode B) = Except.ok B ∧
    hexutil.Encode [] = "0x" ∧
    hexutil.Decode "0x" = Except.ok ([] : List Nat) :=
  ⟨hexutil.Decode_Encode B h, rfl, rfl⟩

/-- Claim C3, witness: the round trip at the concrete blob `[0, 255, 171]`. -/
theorem c3_codec_roundtrip_witness :
    hexutil.Decode (hexutil.Encode [0, 255, 171]) = Except.ok [0, 255, 171] ∧
    hexutil.Encode [] = "0x" ∧
    hexutil.Decode "0x" = Except.ok ([] : List Nat) :=
  c3_codec_roundtrip [0, 255, 171] (by decide)

/-- Claim C4: whenever the Engine's Ancient reports an error, the facade
returns the encoded-empty placeholder `"0x"` together with that very error;
on success it returns the hex encoding of the Engine's blob with no error. -/
theorem c4_ancient_placeholder_on_failure (b : List Nat) (e : FreezerErr) :
    FreezerRemoteAPIGen.Ancient (b, some e) = ("0x", some e) ∧
    FreezerRemoteAPIGen.Ancient (b, none) = (hexutil.Encode b, none) :=
  ⟨rfl, rfl⟩

/-- Claim C5: each of the eight facade operations returns the Engine's error
value exactly as the Engine produced it — never substituted, wrapped or
swallowed.  For AppendAncient this holds once the facade's own decoding of
the four checked arguments succeeds (a decode failure never reaches the
Engine at all). -/
theorem c5_engine_errors_propagated_verbatim (e : FreezerErr) (v : Bool)
    (b : List Nat) (n m : Nat) :
    FreezerRemoteAPIGen.HasAncient (v, some e) = (v, some e) ∧
    (FreezerRemoteAPIGen.Ancient (b, some e)).2 = some e ∧
    FreezerRemoteAPIGen.Ancients (n, some e) = (0, some e) ∧
    FreezerRemoteAPIGen.AncientSize (m, some e) = (0, some e) ∧
    (∀ hash header body receipts td : String, ∀ bh bhd bb br : List Nat,
      hexutil.Decode hash = Except.ok bh →
      hexutil.Decode header = Except.ok bhd →
      hexutil.Decode body = Except.ok bb →
      hexutil.Decode receipts = Except.ok br →
      FreezerRemoteAPIGen.AppendAncient hash header body receipts td (some e) =
        some e) ∧
    FreezerRemoteAPIGen.TruncateAncients (some e) = some e ∧
    FreezerRemoteAPIGen.Sync (some e) = some e ∧
    FreezerRemoteAPIGen.Close (some e) = some e := by
  refine ⟨rfl, rfl, rfl, rfl, ?_, rfl, rfl, rfl⟩
  intro hash header body receipts td bh bhd bb br h1 h2 h3 h4
  simp [FreezerRemoteAPIGen.AppendAncient, h1, h2, h3, h4]

/-- Claim C5, witness: verbatim propagation of the opaque engine error with
code 7 through each facade operation at concrete arguments. -/
theorem c5_engine_errors_propagated_verbatim_witness :
    FreezerRemoteAPIGen.HasAncient (true, some (FreezerErr.EngineError 7)) =
      (true, some (FreezerErr.EngineError 7)) ∧
    (FreezerRemoteAPIGen.Ancient ([1], some (FreezerErr.EngineError 7))).2 =
      some (FreezerErr.EngineError 7) ∧
    FreezerRemoteAPIGen.Ancients (3, some (FreezerErr.EngineError 7)) =
      (0, some (FreezerErr.EngineError 7)) ∧
    FreezerRemoteAPIGen.AncientSize (4, some (FreezerErr.EngineError 7)) =
      (0, some (FreezerErr.EngineError 7)) ∧
    FreezerRemoteAPIGen.AppendAncient "0x01" "0x02" "0x03" "0x04" "0x05"
      (some (FreezerErr.EngineError 7)) = some (FreezerErr.EngineError 7) ∧
    FreezerRemoteAPIGen.TruncateAncients (some (FreezerErr.EngineError 7)) =
      some (FreezerErr.EngineError 7) ∧
    FreezerRemoteAPIGen.Sync (some (FreezerErr.EngineError 7)) =
      some (FreezerErr.EngineError 7) ∧
    FreezerRemoteAPIGen.Close (some (FreezerErr.EngineError 7)) =
      some (FreezerErr.EngineError 7) := by
  have h := c5_engine_errors_propagated_verbatim (FreezerErr.EngineError 7)
    true [1] 3 4
  exact ⟨h.1, h.2.1, h.2.2.1, h.2.2.2.1,
    h.2.2.2.2.1 "0x01" "0x02" "0x03" "0x04" "0x05" [1] [2] [3] [4]
      rfl rfl rfl rfl,
    h.2.2.2.2.2.1, h.2.2.2.2.2.2.1, h.2.2.2.2.2.2.2⟩

/-- Claim C6, counterexample: constructing the client with a successful dial
and an empty transport request list succeeds — yet the request list after
construction is still empty, so no version-probe request was ever sent to the
server.  The probe is a local constant stub, refuting the claim that
construction performs a version-probe handshake against the server. -/
theorem c6_no_probe_sent_counterexample :
    (newFreezerRemoteClient none []).2 = ([] : List String) ∧
    (newFreezerRemoteClient none []).1 =
      Except.ok { status := "ok [version=version 1]" } :=
  ⟨rfl, rfl⟩

/-- Claim C6 as amended: constructing a Remote Client runs a synchronous local
version probe that does not contact the server, fails construction (returns
an error and no client) whenever the transport cannot connect or the probe
errors (the probe in fact cannot error), and otherwise records a
human-readable status string containing the reported version. -/
theorem c6_construction_amended (d : Option FreezerErr) (t : List String) :
    (newFreezerRemoteClient d t).2 = t ∧
    (∀ e, d = some e → (newFreezerRemoteClient d t).1 = Except.error e) ∧
    (d = none →
      (newFreezerRemoteClient d t).1 =
        Except.ok { status := "ok [version=" ++ "version 1" ++ "]" }) ∧
    FreezerRemoteClient.pingVersion t = (("version 1", none), t) := by
  cases d with
  | none =>
    refine ⟨rfl, ?_, fun _ => rfl, rfl⟩
    intro e he
    exact absurd he (by simp)
  | some e0 =>
    refine ⟨rfl, ?_, ?_, rfl⟩
    · intro e he
      injection he with h
      subst h
      rfl
    · intro he
      exact absurd he (by simp)

/-- Claim C6, witness: a failed dial propagates its transport error; a
successful dial yields a client whose status records the version. -/
theorem c6_construction_amended_witness :
    (newFreezerRemoteClient (some FreezerErr.TransportError) ["r"]).1 =
      Except.error FreezerErr.TransportError ∧
    (newFreezerRemoteClient none ["r"]).1 =
      Except.ok { status := "ok [version=" ++ "version 1" ++ "]" } :=
  ⟨((c6_construction_amended (some FreezerErr.TransportError) ["r"]).2.1
      FreezerErr.TransportError rfl),
   ((c6_construction_amended none ["r"]).2.2.1 rfl)⟩

/-- Claim C7: the reference repair operation is a no-op that always succeeds —
for every store state it returns no error and leaves the frozen count and
every category's records unchanged. -/
theorem c7_repair_noop (s : EngineState) :
    FreezerRemoteAPI.repair s = (none, s) ∧
    (FreezerRemoteAPI.repair s).2.frozen = s.frozen ∧
    ∀ k, tableOf (FreezerRemoteAPI.repair s).2 k = tableOf s k :=
  ⟨rfl, rfl, fun _ => rfl⟩

/-- Claim C8: the Remote Client's Close leaves the store closed, and closing a
second time is safe: it produces the same observable result and the same
closed state as the first call. -/
theorem c8_close_idempotent (s : EngineState) :
    (FreezerRemoteClient.Close s).2.closed = true ∧
    FreezerRemoteClient.Close (FreezerRemoteClient.Close s).2 =
      FreezerRemoteClient.Close s :=
  ⟨rfl, rfl⟩

/-- Claim C9: `pingVersion` is a constant function — for every transport state
it returns `("version 1", nil)` and sends nothing to the server — so client
construction succeeds exactly when the transport dial succeeds, and the
recorded status string is always `"ok [version=version 1]"` regardless of the
remote server. -/
theorem c9_pingVersion_constant :
    (∀ t : List String,
      FreezerRemoteClient.pingVersion t = (("version 1", none), t)) ∧
    (∀ t : List String,
      (newFreezerRemoteClient none t).1 =
        Except.ok { status := "ok [version=version 1]" } ∧
      (newFreezerRemoteClient none t).2 = t) ∧
    (∀ (e : FreezerErr) (t : List String),
      (newFreezerRemoteClient (some e) t).1 = Except.error e) :=
  ⟨fun _ => rfl, fun _ => ⟨rfl, rfl⟩, fun _ _ => rfl⟩

/-- Claim C10: the Remote Client's AppendAncient cannot fail while encoding —
encoding is total, each transmitted argument is a well-formed `0x`-prefixed
envelope that decodes back to the original blob, and the call's result is
exactly the transport round trip's result, whatever the transport does. -/
theorem c10_client_append_encoding_total
    (call : Nat → String → String → String → String → String → Option FreezerErr)
    (number : Nat) (h1 h2 h3 h4 h5 : List Nat)
    (w1 : ∀ b ∈ h1, b < 256) (w2 : ∀ b ∈ h2, b < 256)
    (w3 : ∀ b ∈ h3, b < 256) (w4 : ∀ b ∈ h4, b < 256)
    (w5 : ∀ b ∈ h5, b < 256) :
    FreezerRemoteClient.AppendAncient call number h1 h2 h3 h4 h5 =
      call number (hexutil.Encode h1) (hexutil.Encode h2) (hexutil.Encode h3)
        (hexutil.Encode h4) (hexutil.Encode h5) ∧
    (∀ b : List Nat, (hexutil.Encode b).data.take 2 = ['0', 'x']) ∧
    hexutil.Decode (hexutil.Encode h1) = Except.ok h1 ∧
    hexutil.Decode (hexutil.Encode h2) = Except.ok h2 ∧
    hexutil.Decode (hexutil.Encode h3) = Except.ok h3 ∧
    hexutil.Decode (hexutil.Encode h4) = Except.ok h4 ∧
    hexutil.Decode (hexutil.Encode h5) = Except.ok h5 :=
  ⟨rfl, fun _ => rfl,
   hexutil.Decode_Encode h1 w1, hexutil.Decode_Encode h2 w2,
   hexutil.Decode_Encode h3 w3, hexutil.Decode_Encode h4 w4,
   hexutil.Decode_Encode h5 w5⟩

/-- Claim C10, witness: with a transport that always reports a transport
error, the client's AppendAncient at concrete blobs returns exactly that
transport result, and the concrete td envelope is well-formed. -/
theorem c10_client_append_encoding_total_witness :
    FreezerRemoteClient.AppendAncient
      (fun _ _ _ _ _ _ => (some FreezerErr.TransportError : Option FreezerErr))
      0 [1] [2] [3] [4] [255] = some FreezerErr.TransportError ∧
    (hexutil.Encode [255]).data.take 2 = ['0', 'x'] ∧
    hexutil.Decode (hexutil.Encode [255]) = Except.ok [255] := by
  have h := c10_client_append_encoding_total
    (fun _ _ _ _ _ _ => (some FreezerErr.TransportError : Option FreezerErr))
    0 [1] [2] [3] [4] [255]
    (by decide) (by decide) (by decide) (by decide) (by decide)
  exact ⟨h.1.trans rfl, h.2.1 [255], h.2.2.2.2.2.2⟩
